import Mathlib

/-!
# Verification of the interop serializers

Shallow embedding of `src/interop/serializers.py`: the dictionary-based
deserializers (mission, obstacles, object), the ISO-8601 time conversion, the
telemetry serializer and the image transcoder, together with theorems about
the specified behaviour.

Modelling conventions:
* Python `float` values that only undergo field copies and multiplications by
  decimal constants are modelled as exact rationals (`ℚ`); the telemetry
  serializer, which uses transcendental functions, is modelled over `ℝ`.
* A Python dictionary key that the code may find absent is modelled as an
  `Option` field; `data[k]` raising `KeyError` becomes an `Except` error.
* `rospy.get_rostime()` (the global clock read used for header stamps) is
  passed in explicitly as a `now` parameter.
-/

/-- Errors surfaced by the converters: a `KeyError` on a required key
(`MissingField` in the design document) and a rejected enumeration token
(`UnknownEnumValue`). -/
inductive Err where
  | missingField (key : String)
  | unknownEnumValue (token : String)
  deriving DecidableEq

/-- `feet_to_meters` (serializers.py line 33): `float(ft) * 0.3048`. -/
def feet_to_meters (ft : ℚ) : ℚ := ft * 0.3048

/-- ROS `std_msgs/Time` payload: seconds and nanoseconds. -/
structure RosTimeMsg where
  secs : Int := 0
  nsecs : Int := 0
  deriving DecidableEq

/-- `iso8601_to_rostime` (serializers.py lines 45-69).

The external `dateutil.parser.parse` call is abstracted away: the input here
is the instant the parser produced, converted to UTC, given as integer
microseconds since the Unix epoch (`datetime` has microsecond resolution, and
when the text carries no UTC offset the code attaches UTC before
subtracting the epoch, so the instant is always a well-defined integer
number of microseconds, negative for pre-epoch instants).

The remaining arithmetic is translated from the source:
* `dt.microseconds` of the Python `timedelta` is the floored remainder of the
  total microseconds by 10^6 (always in `[0, 10^6)`), i.e. `Int.emod`;
* `int(dt.total_seconds())` truncates the quotient toward zero, i.e.
  `Int.tdiv` (the float rounding inside `total_seconds` is modelled as exact
  division). -/
def iso8601_to_rostime (micros : Int) : RosTimeMsg :=
  { secs := Int.tdiv micros 1000000
    nsecs := micros % 1000000 * 1000 }

/-- `geographic_msgs/GeoPoint`: latitude/longitude/altitude, all zero by
default. -/
structure GeoPointMsg where
  latitude : ℚ := 0
  longitude : ℚ := 0
  altitude : ℚ := 0
  deriving DecidableEq

/-- `std_msgs/Header` as used here: a stamp and a frame id. -/
structure HeaderMsg where
  stamp : ℚ := 0
  frame_id : String := ""
  deriving DecidableEq

/-- Polygon of geographic points. -/
structure GeoPolygonMsg where
  points : List GeoPointMsg := []
  deriving DecidableEq

/-- `GeoPolygonStamped`: header plus polygon. -/
structure GeoPolygonStampedMsg where
  header : HeaderMsg := {}
  polygon : GeoPolygonMsg := {}
  deriving DecidableEq

/-- `FlyZone`: a stamped boundary polygon and the altitude band in meters. -/
structure FlyZoneMsg where
  zone : GeoPolygonStampedMsg := {}
  max_alt : ℚ := 0
  min_alt : ℚ := 0
  deriving DecidableEq

/-- `FlyZoneArray`. -/
structure FlyZoneArrayMsg where
  flyzones : List FlyZoneMsg := []
  deriving DecidableEq

/-- `WayPoints`: header plus ordered geographic waypoints. -/
structure WayPointsMsg where
  header : HeaderMsg := {}
  waypoints : List GeoPointMsg := []
  deriving DecidableEq

/-- `GeoPointStamped`: header plus a single position. -/
structure GeoPointStampedMsg where
  header : HeaderMsg := {}
  position : GeoPointMsg := {}
  deriving DecidableEq

/-- `GeoCylinder`: radius and height in meters plus the center point. -/
structure GeoCylinderMsg where
  radius : ℚ := 0
  height : ℚ := 0
  center : GeoPointMsg := {}
  deriving DecidableEq

/-- `GeoCylinderArrayStamped`. -/
structure GeoCylinderArrayStampedMsg where
  header : HeaderMsg := {}
  cylinders : List GeoCylinderMsg := []
  deriving DecidableEq

/-- One entry of a fly zone's `boundary_pts` list (the `order` key that the
wire format also carries is never read by the converter and is omitted). -/
structure BoundaryPt where
  latitude : ℚ := 0
  longitude : ℚ := 0
  deriving DecidableEq

/-- One entry of `fly_zones`. -/
structure ZoneDict where
  altitude_msl_max : ℚ := 0
  altitude_msl_min : ℚ := 0
  boundary_pts : List BoundaryPt := []
  deriving DecidableEq

/-- One entry of `search_grid_points` or `mission_waypoints`. -/
structure WaypointDict where
  latitude : ℚ := 0
  longitude : ℚ := 0
  altitude_msl : ℚ := 0
  deriving DecidableEq

/-- A `{latitude, longitude}` sub-dictionary (air drop, off axis, emergent,
home positions). -/
structure PosDict where
  latitude : ℚ := 0
  longitude : ℚ := 0
  deriving DecidableEq

/-- The mission dictionary. Each field models one top-level key; `none` means
the key is absent from the dictionary. -/
structure MissionDict where
  fly_zones : Option (List ZoneDict) := none
  search_grid_points : Option (List WaypointDict) := none
  mission_waypoints : Option (List WaypointDict) := none
  air_drop_pos : Option PosDict := none
  off_axis_odlc_pos : Option PosDict := none
  emergent_last_known_pos : Option PosDict := none
  home_pos : Option PosDict := none
  deriving DecidableEq

/-- `data[key]` on a required key: a present value is returned, an absent key
raises `KeyError`, surfaced as `Err.missingField key`. -/
def req {α : Type} (key : String) : Option α → Except Err α
  | none => .error (.missingField key)
  | some v => .ok v

/-- `MissionDeserializer.__get_flyzone` (lines 76-112): one `FlyZone` per
zone, boundary points appended in input order with latitude/longitude copied
(altitude left at the `GeoPoint` default), altitude band converted from feet
to meters. -/
def MissionDeserializer.getFlyzone (data : List ZoneDict) (frame : String)
    (now : ℚ) : FlyZoneArrayMsg :=
  let header : HeaderMsg := { stamp := now, frame_id := frame }
  { flyzones := data.map (fun zone =>
      { zone := { header := header
                  polygon := { points := zone.boundary_pts.map (fun w =>
                    { latitude := w.latitude, longitude := w.longitude }) } }
        max_alt := feet_to_meters zone.altitude_msl_max
        min_alt := feet_to_meters zone.altitude_msl_min }) }

/-- `MissionDeserializer.__get_waypoints` (lines 114-146): one `GeoPoint` per
waypoint in input order, altitude converted from feet to meters. -/
def MissionDeserializer.getWaypoints (data : List WaypointDict) (frame : String)
    (now : ℚ) : WayPointsMsg :=
  { header := { stamp := now, frame_id := frame }
    waypoints := data.map (fun point =>
      { latitude := point.latitude
        longitude := point.longitude
        altitude := feet_to_meters point.altitude_msl }) }

/-- `MissionDeserializer.__get_search_grid` (lines 148-178): one boundary
point per entry in input order, altitude converted from feet to meters. -/
def MissionDeserializer.getSearchGrid (data : List WaypointDict) (frame : String)
    (now : ℚ) : GeoPolygonStampedMsg :=
  { header := { stamp := now, frame_id := frame }
    polygon := { points := data.map (fun point =>
      { latitude := point.latitude
        longitude := point.longitude
        altitude := feet_to_meters point.altitude_msl }) } }

/-- `MissionDeserializer.__get_point_msg` (lines 180-202): wraps a
`{latitude, longitude}` dictionary into a stamped point. -/
def MissionDeserializer.getPointMsg (data : PosDict) (frame : String)
    (now : ℚ) : GeoPointStampedMsg :=
  { header := { stamp := now, frame_id := frame }
    position := { latitude := data.latitude, longitude := data.longitude } }

/-- The tuple returned by `MissionDeserializer.from_dict`. -/
structure MissionBundle where
  flyzones : FlyZoneArrayMsg
  search_grid : GeoPolygonStampedMsg
  waypoints : WayPointsMsg
  air_drop : GeoPointStampedMsg
  off_axis_obj : GeoPointStampedMsg
  emergent_obj : GeoPointStampedMsg
  home : GeoPointStampedMsg
  deriving DecidableEq

/-- `MissionDeserializer.from_dict` (lines 204-231): reads the seven required
top-level keys in source order and assembles the result tuple; the first
absent key aborts the conversion with its `KeyError`. -/
def MissionDeserializer.from_dict (data : MissionDict) (frame : String)
    (now : ℚ) : Except Err MissionBundle := do
  let fly_zones ← req "fly_zones" data.fly_zones
  let search_grid_points ← req "search_grid_points" data.search_grid_points
  let mission_waypoints ← req "mission_waypoints" data.mission_waypoints
  let air_drop_pos ← req "air_drop_pos" data.air_drop_pos
  let off_axis_odlc_pos ← req "off_axis_odlc_pos" data.off_axis_odlc_pos
  let emergent_last_known_pos ← req "emergent_last_known_pos"
    data.emergent_last_known_pos
  let home_pos ← req "home_pos" data.home_pos
  return { flyzones := MissionDeserializer.getFlyzone fly_zones frame now
           search_grid := MissionDeserializer.getSearchGrid search_grid_points frame now
           waypoints := MissionDeserializer.getWaypoints mission_waypoints frame now
           air_drop := MissionDeserializer.getPointMsg air_drop_pos frame now
           off_axis_obj := MissionDeserializer.getPointMsg off_axis_odlc_pos frame now
           emergent_obj := MissionDeserializer.getPointMsg emergent_last_known_pos frame now
           home := MissionDeserializer.getPointMsg home_pos frame now }

/-- One entry of `stationary_obstacles`. -/
structure ObstacleDict where
  cylinder_height : ℚ := 0
  cylinder_radius : ℚ := 0
  latitude : ℚ := 0
  longitude : ℚ := 0
  deriving DecidableEq

/-- The obstacles dictionary: the single `stationary_obstacles` key is
optional (`none` models its absence). -/
structure ObstaclesDict where
  stationary_obstacles : Option (List ObstacleDict) := none
  deriving DecidableEq

/-- `ObstaclesDeserializer.from_dict` (lines 238-272): when the
`stationary_obstacles` key is present, one `GeoCylinder` per entry with
radius/height converted from feet to meters and the center copied; when it is
absent the cylinder list stays empty.  The `lifetime` argument is accepted
but never read by the source. -/
def ObstaclesDeserializer.from_dict (data : ObstaclesDict) (frame : String)
    (now : ℚ) (lifetime : ℚ) : GeoCylinderArrayStampedMsg :=
  { header := { stamp := now, frame_id := frame }
    cylinders :=
      match data.stationary_obstacles with
      | none => []
      | some objs => objs.map (fun obj =>
          { radius := feet_to_meters obj.cylinder_radius
            height := feet_to_meters obj.cylinder_height
            center := { latitude := obj.latitude, longitude := obj.longitude } }) }

/-- The `Object` ROS message (`interop/msg/Object.msg`).  Slot order follows
the message definition: type, latitude, longitude, orientation, shape,
background_color, alphanumeric_color, alphanumeric, description, autonomous.
The four enumeration-typed slots are represented by their string `data`
payload; defaults are the ROS message defaults (empty string, zero, false). -/
structure Object where
  type : String := ""
  latitude : ℚ := 0
  longitude : ℚ := 0
  orientation : String := ""
  shape : String := ""
  background_color : String := ""
  alphanumeric_color : String := ""
  alphanumeric : String := ""
  description : String := ""
  autonomous : Bool := false
  deriving DecidableEq

/-- Modelled from the spec: the token set of the `ObjectType` enumeration.
The `interop/msg` enumeration message definitions are not part of the source
tree; design document section 4.3 fixes, per categorical field, a closed set
of lowercase tokens whose decoding is a pure lookup. -/
def objectTypeTokens : List String := ["standard", "off_axis", "emergent"]

/-- Modelled from the spec: the token set of the `Orientation` enumeration
(compass points, e.g. the "n" used by the test-suite). -/
def orientationTokens : List String :=
  ["n", "ne", "e", "se", "s", "sw", "w", "nw"]

/-- Modelled from the spec: the token set of the `Shape` enumeration
(e.g. the "star" used by the test-suite). -/
def shapeTokens : List String :=
  ["circle", "semicircle", "quarter_circle", "triangle", "square",
   "rectangle", "trapezoid", "pentagon", "hexagon", "heptagon", "octagon",
   "star", "cross"]

/-- Modelled from the spec: the token set of the `Color` enumeration
(e.g. the "orange" and "black" used by the test-suite). -/
def colorTokens : List String :=
  ["white", "black", "gray", "red", "blue", "green", "yellow", "purple",
   "brown", "orange"]

/-- Modelled from the spec: constructing an enumeration message from a token
(`attribute_type(value)` in `ObjectSerializer.from_dict` when the slot is one
of the `ENUMERATION_TYPES`): a token inside the closed set is stored as the
message `data`, any other token is rejected with `UnknownEnumValue`
(spec section 4.3: "unknown token → UnknownEnumValue error, field left
unset/conversion aborted for that record"). -/
def decodeEnum (tokens : List String) (tok : String) : Except Err String :=
  if tok ∈ tokens then .ok tok else .error (.unknownEnumValue tok)

/-- One iteration of the slot loop in `ObjectSerializer.from_dict`
(lines 351-359): the slot keeps its current value when the key is absent
(`attribute in data` false) or when the value is `None`
(`value is not None` false); otherwise the cast value is assigned.
The entry is `none` for an absent key, `some none` for a key mapped to
`None`, and `some (some v)` for a key mapped to the value `v`. -/
def setSlot {α β : Type} (cur : β) (entry : Option (Option α))
    (cast : α → Except Err β) : Except Err β :=
  match entry with
  | none => .ok cur
  | some none => .ok cur
  | some (some v) => cast v

/-- The object dictionary.  One field per key the test data carries; each is
`none` when absent, `some none` when present with value `None`, and
`some (some v)` when present with value `v`.  The `id` and `user` keys name
no `Object` slot. -/
structure ObjectDict where
  id : Option (Option Int) := none
  user : Option (Option Int) := none
  type : Option (Option String) := none
  latitude : Option (Option ℚ) := none
  longitude : Option (Option ℚ) := none
  orientation : Option (Option String) := none
  shape : Option (Option String) := none
  background_color : Option (Option String) := none
  alphanumeric_color : Option (Option String) := none
  alphanumeric : Option (Option String) := none
  description : Option (Option String) := none
  autonomous : Option (Option Bool) := none
  deriving DecidableEq

/-- `ObjectSerializer.from_dict` (lines 338-361): starts from a default
`Object()` and walks the message slots in declaration order; only keys that
name a slot are consulted (`id`, `user` and any other foreign key are never
read), the enumeration-typed slots decode their token via the enumeration
constructor, the remaining slots take the type-cast value. -/
def ObjectSerializer.from_dict (data : ObjectDict) : Except Err Object := do
  let m : Object := {}
  let ty ← setSlot m.type data.type (decodeEnum objectTypeTokens)
  let lat ← setSlot m.latitude data.latitude (fun v => .ok v)
  let lon ← setSlot m.longitude data.longitude (fun v => .ok v)
  let ori ← setSlot m.orientation data.orientation (decodeEnum orientationTokens)
  let sh ← setSlot m.shape data.shape (decodeEnum shapeTokens)
  let bg ← setSlot m.background_color data.background_color (decodeEnum colorTokens)
  let ac ← setSlot m.alphanumeric_color data.alphanumeric_color (decodeEnum colorTokens)
  let al ← setSlot m.alphanumeric data.alphanumeric (fun v => .ok v)
  let de ← setSlot m.description data.description (fun v => .ok v)
  let au ← setSlot m.autonomous data.autonomous (fun v => .ok v)
  return { type := ty, latitude := lat, longitude := lon, orientation := ori
           shape := sh, background_color := bg, alphanumeric_color := ac
           alphanumeric := al, description := de, autonomous := au }

/-- The value a slot ends up with: the dictionary value when the key is
present with a non-`None` value, the default otherwise. -/
def slotVal {α : Type} (dflt : α) (entry : Option (Option α)) : α :=
  match entry with
  | some (some v) => v
  | _ => dflt

/-- The offending token of an enumeration slot, if any: the entry holds a
value outside the token set. -/
def badTok (tokens : List String) (entry : Option (Option String)) : Option String :=
  match entry with
  | some (some t) => if t ∈ tokens then none else some t
  | _ => none

/-- The first unknown enumeration token hit by the slot loop of
`ObjectSerializer.from_dict`, in slot order. -/
def firstUnknown (d : ObjectDict) : Option String :=
  (badTok objectTypeTokens d.type).orElse fun _ =>
    (badTok orientationTokens d.orientation).orElse fun _ =>
      (badTok shapeTokens d.shape).orElse fun _ =>
        (badTok colorTokens d.background_color).orElse fun _ =>
          badTok colorTokens d.alphanumeric_color

/-- Collapses a present-but-`None` entry into an absent one. -/
def normalizeEntry {α : Type} : Option (Option α) → Option (Option α)
  | some (some v) => some (some v)
  | _ => none

/-- Restriction of an object dictionary to the entries
`ObjectSerializer.from_dict` can observe: keys naming no slot are dropped and
`None`-valued entries are collapsed to absent ones. -/
def ObjectDict.normalize (d : ObjectDict) : ObjectDict :=
  { id := none
    user := none
    type := normalizeEntry d.type
    latitude := normalizeEntry d.latitude
    longitude := normalizeEntry d.longitude
    orientation := normalizeEntry d.orientation
    shape := normalizeEntry d.shape
    background_color := normalizeEntry d.background_color
    alphanumeric_color := normalizeEntry d.alphanumeric_color
    alphanumeric := normalizeEntry d.alphanumeric
    description := normalizeEntry d.description
    autonomous := normalizeEntry d.autonomous }

/-- `sensor_msgs/NavSatFix` (the fields read by the telemetry serializer). -/
structure NavSatFix where
  latitude : ℝ := 0
  longitude : ℝ := 0

/-- `mavros_msgs/Altitude` (the field read by the telemetry serializer). -/
structure Altitude where
  amsl : ℝ := 0

/-- `geometry_msgs/Quaternion`. -/
structure QuatMsg where
  x : ℝ := 0
  y : ℝ := 0
  z : ℝ := 0
  w : ℝ := 0

/-- `geometry_msgs/Pose` (the field read by the telemetry serializer). -/
structure Pose where
  orientation : QuatMsg := {}

/-- `geometry_msgs/PoseStamped` (the field read by the telemetry
serializer). -/
structure PoseStamped where
  pose : Pose := {}

/-- The dictionary produced by `TelemetrySerializer.from_msg`. -/
structure TelemetryDict where
  latitude : ℝ
  longitude : ℝ
  altitude_msl : ℝ
  uas_heading : ℝ

/-- `meters_to_feet` (serializers.py line 21): `float(m) / 0.3048`, over the
real-valued model used by the telemetry serializer. -/
noncomputable def meters_to_feet (m : ℝ) : ℝ := m / 0.3048

/-- Two-argument arctangent (`math.atan2(y, x)`), via the complex argument:
`Complex.arg ⟨x, y⟩` is the angle of the point `(x, y)` in `(-π, π]`,
which is exactly `atan2`'s convention. -/
noncomputable def atan2 (y x : ℝ) : ℝ := Complex.arg ⟨x, y⟩

/-- `tf.transformations._EPS`: `numpy.finfo(float64).eps * 4.0`. -/
noncomputable def tfEPS : ℝ := 4 / 2 ^ 52

/-- Entry `M[0][0]` of `tf.transformations.quaternion_matrix(q)` for a
quaternion given as `(x, y, z, w)`: the identity matrix when the squared
norm `nq` is below `tfEPS`, otherwise `1 - (2/nq) * (y*y + z*z)`. -/
noncomputable def quatM00 (x y z w : ℝ) : ℝ :=
  let nq := x * x + y * y + z * z + w * w
  if nq < tfEPS then 1 else 1 - 2 / nq * (y * y + z * z)

/-- Entry `M[1][0]` of `tf.transformations.quaternion_matrix(q)`: zero when
the squared norm is below `tfEPS`, otherwise `(2/nq) * (x*y + w*z)`. -/
noncomputable def quatM10 (x y z w : ℝ) : ℝ :=
  let nq := x * x + y * y + z * z + w * w
  if nq < tfEPS then 0 else 2 / nq * (x * y + w * z)

/-- `tf.transformations.euler_from_quaternion(q)[2]` with the default `sxyz`
axes, as computed by `euler_from_matrix` on `quaternion_matrix(q)`:
with `sy = sqrt(M[0][0]^2 + M[1][0]^2)`, the yaw is
`atan2(M[1][0], M[0][0])` when `sy > tfEPS` and `0` in the singular
branch. -/
noncomputable def yawFromQuaternion (x y z w : ℝ) : ℝ :=
  let m00 := quatM00 x y z w
  let m10 := quatM10 x y z w
  let sy := Real.sqrt (m00 * m00 + m10 * m10)
  if sy > tfEPS then atan2 m10 m00 else 0

/-- `numpy.rad2deg`: multiplication by `180 / π`. -/
noncomputable def rad2deg (r : ℝ) : ℝ := r * (180 / Real.pi)

/-- Python float modulo `a % b`: `a - b * floor(a / b)` (the result carries
the sign of the divisor). -/
noncomputable def pymod (a b : ℝ) : ℝ := a - b * ⌊a / b⌋

/-- `TelemetrySerializer.from_msg` (lines 279-306): yaw is extracted from the
pose quaternion, converted to degrees and remapped to a compass heading via
`(450 - deg) % 360`; latitude/longitude pass through and the altitude is
converted from meters to feet. -/
noncomputable def TelemetrySerializer.from_msg (navsat_msg : NavSatFix)
    (altitude_msg : Altitude) (pose_msg : PoseStamped) : TelemetryDict :=
  let q := pose_msg.pose.orientation
  let yaw := yawFromQuaternion q.x q.y q.z q.w
  let compass_heading := pymod (450 - rad2deg yaw) 360
  { latitude := navsat_msg.latitude
    longitude := navsat_msg.longitude
    altitude_msl := meters_to_feet altitude_msg.amsl
    uas_heading := compass_heading }

/-- A ROS `Image` message, abstracted to the raster it wraps (`R` stands for
the external OpenCV raster type, pixel-for-pixel). -/
structure RosImage (R : Type) where
  data : R
  deriving DecidableEq

/-- A ROS `CompressedImage` message: a format tag and the compressed byte
stream (`B` stands for the external byte-string type). -/
structure CompressedImageMsg (B : Type) where
  format : String
  data : B
  deriving DecidableEq

/-- `cv_bridge.CvBridge().imgmsg_to_cv2`: unwraps the raster of an image
message (modelled as an exact inverse of `cv2_to_imgmsg`, which is what
pixel-for-pixel fidelity of the bridge means). -/
def imgmsg_to_cv2 {R : Type} (msg : RosImage R) : R := msg.data

/-- `cv_bridge.CvBridge().cv2_to_imgmsg`: wraps a raster into an image
message. -/
def cv2_to_imgmsg {R : Type} (img : R) : RosImage R := ⟨img⟩

/-- The decode-only core of `ObjectImageSerializer.from_raw` (lines 411-417):
`cv2.imdecode` on the bytes followed by `cv2_to_imgmsg`.  The external PNG
codec enters as the pair `dec`/`enc`: `dec` is
`cv2.imdecode(·, IMREAD_COLOR)` (`none` on malformed input, where the source
raises), `enc` is `cv2.imencode(".png", ·, max compression)`. -/
def ObjectImageSerializer.fromRawCore {R B : Type} (dec : B → Option R)
    (raw : B) : Option (RosImage R) :=
  (dec raw).map cv2_to_imgmsg

/-- `ObjectImageSerializer.from_msg` (lines 368-395): a `CompressedImage`
input is first decompressed via `from_raw` (with `compress = False`, which is
`fromRawCore`), then the raster is re-encoded as PNG. -/
def ObjectImageSerializer.from_msg {R B : Type} (dec : B → Option R)
    (enc : R → B) :
    RosImage R ⊕ CompressedImageMsg B → Option B
  | .inl msg => some (enc (imgmsg_to_cv2 msg))
  | .inr msg =>
      (ObjectImageSerializer.fromRawCore dec msg.data).map
        (fun m => enc (imgmsg_to_cv2 m))

/-- `ObjectImageSerializer.from_raw` (lines 397-425): decodes the bytes to an
image message; with `compress` set, re-encodes it via `from_msg` and wraps
the result in a `CompressedImage` tagged "png". -/
def ObjectImageSerializer.from_raw {R B : Type} (dec : B → Option R)
    (enc : R → B) (raw : B) (compress : Bool) :
    Option (RosImage R ⊕ CompressedImageMsg B) :=
  (ObjectImageSerializer.fromRawCore dec raw).bind fun msg =>
    if compress then
      (ObjectImageSerializer.from_msg dec enc (.inl msg)).map
        (fun d => .inr { format := "png", data := d })
    else
      some (.inl msg)

/-! ## Theorems -/

/-- C10: the `lifetime` argument of `ObstaclesDeserializer.from_dict` is
accepted but never read, so the produced message (cylinders and header alike)
is identical for any two values of it. -/
theorem obstacles_from_dict_lifetime_independent (d : ObstaclesDict)
    (frame : String) (now l1 l2 : ℚ) :
    ObstaclesDeserializer.from_dict d frame now l1 =
      ObstaclesDeserializer.from_dict d frame now l2 := rfl

/-- C6: `ObstaclesDeserializer.from_dict` yields an empty cylinder list when
the `stationary_obstacles` key is absent, otherwise one cylinder per entry
with radius/height converted from feet to meters (factor 0.3048) and the
center copied unchanged; on the single documented entry this gives height
228.6 m and radius 91.44 m. -/
theorem obstacles_from_dict_spec (d : ObstaclesDict) (frame : String)
    (now lifetime : ℚ) :
    (d.stationary_obstacles = none →
      (ObstaclesDeserializer.from_dict d frame now lifetime).cylinders = []) ∧
    (∀ l, d.stationary_obstacles = some l →
      (ObstaclesDeserializer.from_dict d frame now lifetime).cylinders =
        l.map (fun o =>
          { radius := feet_to_meters o.cylinder_radius
            height := feet_to_meters o.cylinder_height
            center := { latitude := o.latitude, longitude := o.longitude } })) ∧
    (ObstaclesDeserializer.from_dict
        { stationary_obstacles :=
            some [{ cylinder_height := 750, cylinder_radius := 300
                    latitude := 38.140578, longitude := -76.428997 }] }
        frame now lifetime).cylinders =
      [{ radius := 91.44, height := 228.6
         center := { latitude := 38.140578, longitude := -76.428997 } }] := by
  refine ⟨fun h => ?_, fun l h => ?_, ?_⟩
  · simp [ObstaclesDeserializer.from_dict, h]
  · simp [ObstaclesDeserializer.from_dict, h]
  · show [(⟨feet_to_meters 300, feet_to_meters 750,
        ⟨38.140578, -76.428997, 0⟩⟩ : GeoCylinderMsg)] = _
    norm_num [feet_to_meters]

/-- C6 witness: the theorem applied at concrete inputs, discharging both
hypotheses: an absent key yields no cylinders, and a one-entry list converts
400 ft/100 ft to 121.92 m/30.48 m. -/
theorem obstacles_from_dict_spec_witness :
    (ObstaclesDeserializer.from_dict { stationary_obstacles := none }
      "odom" 0 1).cylinders = [] ∧
    (ObstaclesDeserializer.from_dict
        { stationary_obstacles :=
            some [{ cylinder_height := 400, cylinder_radius := 100
                    latitude := 38.149156, longitude := -76.430622 }] }
        "odom" 0 1).cylinders =
      [{ radius := feet_to_meters 100, height := feet_to_meters 400
         center := { latitude := 38.149156, longitude := -76.430622 } }] :=
  ⟨(obstacles_from_dict_spec { stationary_obstacles := none } "odom" 0 1).1 rfl,
   (obstacles_from_dict_spec
      { stationary_obstacles :=
          some [{ cylinder_height := 400, cylinder_radius := 100
                  latitude := 38.149156, longitude := -76.430622 }] }
      "odom" 0 1).2.1 _ rfl⟩

/-- C7: the mission helpers preserve list length and order exactly: each
resulting fly zone polygon lists precisely the boundary points of its zone,
in input order, with the input latitude/longitude, and the search grid and
waypoint lists likewise keep count and order. -/
theorem mission_helpers_preserve_order (zones : List ZoneDict)
    (grid pts : List WaypointDict) (frame : String) (now : ℚ) :
    (MissionDeserializer.getFlyzone zones frame now).flyzones.length
      = zones.length ∧
    (MissionDeserializer.getFlyzone zones frame now).flyzones.map
        (fun fz => fz.zone.polygon.points.map (fun p => (p.latitude, p.longitude)))
      = zones.map (fun z => z.boundary_pts.map (fun b => (b.latitude, b.longitude))) ∧
    (MissionDeserializer.getSearchGrid grid frame now).polygon.points.map
        (fun p => (p.latitude, p.longitude, p.altitude))
      = grid.map (fun w => (w.latitude, w.longitude, feet_to_meters w.altitude_msl)) ∧
    (MissionDeserializer.getWaypoints pts frame now).waypoints.map
        (fun p => (p.latitude, p.longitude, p.altitude))
      = pts.map (fun w => (w.latitude, w.longitude, feet_to_meters w.altitude_msl)) := by
  refine ⟨?_, ?_, ?_, ?_⟩ <;>
    simp [MissionDeserializer.getFlyzone, MissionDeserializer.getSearchGrid,
      MissionDeserializer.getWaypoints, List.map_map, Function.comp]

/-- C2: `MissionDeserializer.from_dict` fails with a `MissingField` error
naming one of the seven required top-level keys whenever any of them is
absent, and succeeds whenever all seven are present (in particular with every
sub-list empty). -/
theorem mission_from_dict_required_keys (d : MissionDict) (frame : String)
    (now : ℚ) :
    ((d.fly_zones = none ∨ d.search_grid_points = none ∨
      d.mission_waypoints = none ∨ d.air_drop_pos = none ∨
      d.off_axis_odlc_pos = none ∨ d.emergent_last_known_pos = none ∨
      d.home_pos = none) →
      ∃ k, MissionDeserializer.from_dict d frame now = .error (.missingField k) ∧
        k ∈ ["fly_zones", "search_grid_points", "mission_waypoints",
             "air_drop_pos", "off_axis_odlc_pos", "emergent_last_known_pos",
             "home_pos"]) ∧
    ((d.fly_zones.isSome ∧ d.search_grid_points.isSome ∧
      d.mission_waypoints.isSome ∧ d.air_drop_pos.isSome ∧
      d.off_axis_odlc_pos.isSome ∧ d.emergent_last_known_pos.isSome ∧
      d.home_pos.isSome) →
      ∃ out, MissionDeserializer.from_dict d frame now = .ok out) := by
  obtain ⟨fz, sg, mw, ad, oa, el, hp⟩ := d
  rcases fz with _ | fz <;> rcases sg with _ | sg <;> rcases mw with _ | mw <;>
    rcases ad with _ | ad <;> rcases oa with _ | oa <;> rcases el with _ | el <;>
    rcases hp with _ | hp <;>
  first
    | exact ⟨fun _ => ⟨"fly_zones", rfl, by decide⟩, fun hs => by simp at hs⟩
    | exact ⟨fun _ => ⟨"search_grid_points", rfl, by decide⟩, fun hs => by simp at hs⟩
    | exact ⟨fun _ => ⟨"mission_waypoints", rfl, by decide⟩, fun hs => by simp at hs⟩
    | exact ⟨fun _ => ⟨"air_drop_pos", rfl, by decide⟩, fun hs => by simp at hs⟩
    | exact ⟨fun _ => ⟨"off_axis_odlc_pos", rfl, by decide⟩, fun hs => by simp at hs⟩
    | exact ⟨fun _ => ⟨"emergent_last_known_pos", rfl, by decide⟩, fun hs => by simp at hs⟩
    | exact ⟨fun _ => ⟨"home_pos", rfl, by decide⟩, fun hs => by simp at hs⟩
    | exact ⟨fun hd => by rcases hd with h | h | h | h | h | h | h <;>
               exact Option.noConfusion h,
             fun _ => ⟨_, rfl⟩⟩

/-- C2 witness: the theorem applied at concrete inputs: the empty dictionary
fails with a missing required key, and a dictionary carrying all seven keys
with empty sub-lists succeeds. -/
theorem mission_from_dict_required_keys_witness :
    (∃ k, MissionDeserializer.from_dict {} "map" 0 = .error (.missingField k) ∧
      k ∈ ["fly_zones", "search_grid_points", "mission_waypoints",
           "air_drop_pos", "off_axis_odlc_pos", "emergent_last_known_pos",
           "home_pos"]) ∧
    (∃ out, MissionDeserializer.from_dict
        { fly_zones := some [], search_grid_points := some []
          mission_waypoints := some [], air_drop_pos := some {}
          off_axis_odlc_pos := some {}, emergent_last_known_pos := some {}
          home_pos := some {} } "map" 0 = .ok out) :=
  ⟨(mission_from_dict_required_keys {} "map" 0).1 (Or.inl rfl),
   (mission_from_dict_required_keys _ "map" 0).2
     ⟨rfl, rfl, rfl, rfl, rfl, rfl, rfl⟩⟩

/-- C3 counterexample: on the pre-epoch instant
1969-12-31T23:59:59.500000Z (elapsed duration -0.5 s, i.e. -500000
microseconds since the epoch), the produced seconds component is 0, not the
floor -1 of the elapsed duration: the floor characterization
`secs * 10^6 ≤ micros` fails, because `int(dt.total_seconds())` truncates
toward zero instead of flooring. -/
theorem iso8601_to_rostime_pre_epoch_counterexample :
    ¬ ((iso8601_to_rostime (-500000)).secs * 1000000 ≤ -500000) := by decide

/-- C3 (amended): for every instant at or after the Unix epoch, the seconds
component is the floor of the elapsed duration in seconds (characterized by
`secs * 10^6 ≤ micros < (secs + 1) * 10^6`) and the nanoseconds component is
the duration's fractional microseconds times 1000, an integer in
`[0, 10^9)`. -/
theorem iso8601_to_rostime_spec (micros : Int) (h : 0 ≤ micros) :
    (iso8601_to_rostime micros).secs * 1000000 ≤ micros ∧
    micros < ((iso8601_to_rostime micros).secs + 1) * 1000000 ∧
    (iso8601_to_rostime micros).nsecs
      = (micros - (iso8601_to_rostime micros).secs * 1000000) * 1000 ∧
    0 ≤ (iso8601_to_rostime micros).nsecs ∧
    (iso8601_to_rostime micros).nsecs < 1000000000 := by
  simp only [iso8601_to_rostime,
    Int.tdiv_eq_ediv h (by norm_num : (0 : Int) ≤ 1000000)]
  omega

/-- C3 witness: the amended theorem applied at the instant
1970-01-01T00:00:01.500000Z (1500000 microseconds past the epoch). -/
theorem iso8601_to_rostime_spec_witness :
    (iso8601_to_rostime 1500000).secs * 1000000 ≤ 1500000 ∧
    (1500000 : Int) < ((iso8601_to_rostime 1500000).secs + 1) * 1000000 ∧
    (iso8601_to_rostime 1500000).nsecs
      = (1500000 - (iso8601_to_rostime 1500000).secs * 1000000) * 1000 ∧
    0 ≤ (iso8601_to_rostime 1500000).nsecs ∧
    (iso8601_to_rostime 1500000).nsecs < 1000000000 :=
  iso8601_to_rostime_spec 1500000 (by decide)

/-- One enumeration-slot iteration, in closed form: the offending token (if
any) aborts with `UnknownEnumValue`, otherwise the slot value is the present
token or the current default. -/
theorem setSlot_enum_eq (cur : String) (tokens : List String)
    (entry : Option (Option String)) :
    setSlot cur entry (decodeEnum tokens) =
      match badTok tokens entry with
      | some t => .error (.unknownEnumValue t)
      | none => .ok (slotVal cur entry) := by
  rcases entry with _ | ⟨_ | v⟩ <;> simp [setSlot, decodeEnum, badTok, slotVal] <;>
    split <;> simp_all

/-- One plain-slot iteration, in closed form: never fails, yields the present
value or the current default. -/
theorem setSlot_plain_eq {α : Type} (cur : α) (entry : Option (Option α)) :
    setSlot cur entry (fun v => .ok v) = .ok (slotVal cur entry) := by
  rcases entry with _ | ⟨_ | v⟩ <;> rfl

/-- Closed form of `ObjectSerializer.from_dict`: the first unknown
enumeration token (in slot order) aborts the conversion with
`UnknownEnumValue`; otherwise every slot carries its present dictionary value
and every other slot the `Object` default. -/
theorem objectFromDict_eq (d : ObjectDict) :
    ObjectSerializer.from_dict d =
      match firstUnknown d with
      | some t => .error (.unknownEnumValue t)
      | none => .ok
          { type := slotVal "" d.type
            latitude := slotVal 0 d.latitude
            longitude := slotVal 0 d.longitude
            orientation := slotVal "" d.orientation
            shape := slotVal "" d.shape
            background_color := slotVal "" d.background_color
            alphanumeric_color := slotVal "" d.alphanumeric_color
            alphanumeric := slotVal "" d.alphanumeric
            description := slotVal "" d.description
            autonomous := slotVal false d.autonomous } := by
  rcases h1 : badTok objectTypeTokens d.type with _ | t1 <;>
    rcases h2 : badTok orientationTokens d.orientation with _ | t2 <;>
      rcases h3 : badTok shapeTokens d.shape with _ | t3 <;>
        rcases h4 : badTok colorTokens d.background_color with _ | t4 <;>
          rcases h5 : badTok colorTokens d.alphanumeric_color with _ | t5 <;>
    simp [ObjectSerializer.from_dict, setSlot_enum_eq, setSlot_plain_eq,
      firstUnknown, h1, h2, h3, h4, h5, Option.orElse, Bind.bind, Except.bind,
      Pure.pure, Except.pure]

/-- `isSome` distributes over `Option.orElse` as a boolean disjunction. -/
theorem isSome_orElse {α : Type} (a : Option α) (f : Unit → Option α) :
    (a.orElse f).isSome = (a.isSome || (f ()).isSome) := by
  cases a <;> simp [Option.orElse]

/-- C1: whenever any categorical entry of the input dictionary carries a
token outside its enumerated value set, `ObjectSerializer.from_dict` fails
with `UnknownEnumValue` and returns no record at all, so no field of a
result is ever assigned from the unknown token. -/
theorem object_from_dict_rejects_unknown_tokens (d : ObjectDict)
    (h : (∃ t, d.type = some (some t) ∧ t ∉ objectTypeTokens) ∨
         (∃ t, d.orientation = some (some t) ∧ t ∉ orientationTokens) ∨
         (∃ t, d.shape = some (some t) ∧ t ∉ shapeTokens) ∨
         (∃ t, d.background_color = some (some t) ∧ t ∉ colorTokens) ∨
         (∃ t, d.alphanumeric_color = some (some t) ∧ t ∉ colorTokens)) :
    ∃ tok, ObjectSerializer.from_dict d = .error (.unknownEnumValue tok) := by
  rw [objectFromDict_eq]
  have hsome : (firstUnknown d).isSome := by
    unfold firstUnknown
    simp only [isSome_orElse, Bool.or_eq_true]
    rcases h with ⟨t, ht, hm⟩ | ⟨t, ht, hm⟩ | ⟨t, ht, hm⟩ | ⟨t, ht, hm⟩ | ⟨t, ht, hm⟩
    · exact Or.inl (by simp [badTok, ht, hm])
    · exact Or.inr (Or.inl (by simp [badTok, ht, hm]))
    · exact Or.inr (Or.inr (Or.inl (by simp [badTok, ht, hm])))
    · exact Or.inr (Or.inr (Or.inr (Or.inl (by simp [badTok, ht, hm]))))
    · exact Or.inr (Or.inr (Or.inr (Or.inr (by simp [badTok, ht, hm]))))
  obtain ⟨t, htok⟩ := Option.isSome_iff_exists.mp hsome
  rw [htok]
  exact ⟨t, rfl⟩

/-- C1 witness: the theorem applied to the dictionary
`{"type": "not_a_type"}`. -/
theorem object_from_dict_rejects_unknown_tokens_witness :
    ∃ tok, ObjectSerializer.from_dict { type := some (some "not_a_type") }
      = .error (.unknownEnumValue tok) :=
  object_from_dict_rejects_unknown_tokens _
    (Or.inl ⟨"not_a_type", rfl, by decide⟩)

/-- C5: whenever `ObjectSerializer.from_dict` succeeds, every field whose key
is absent from the input dictionary is left at the `Object` record's default
value. -/
theorem object_from_dict_partial_update (d : ObjectDict) (m : Object)
    (h : ObjectSerializer.from_dict d = .ok m) :
    (d.type = none → m.type = "") ∧
    (d.latitude = none → m.latitude = 0) ∧
    (d.longitude = none → m.longitude = 0) ∧
    (d.orientation = none → m.orientation = "") ∧
    (d.shape = none → m.shape = "") ∧
    (d.background_color = none → m.background_color = "") ∧
    (d.alphanumeric_color = none → m.alphanumeric_color = "") ∧
    (d.alphanumeric = none → m.alphanumeric = "") ∧
    (d.description = none → m.description = "") ∧
    (d.autonomous = none → m.autonomous = false) := by
  rw [objectFromDict_eq] at h
  rcases hfu : firstUnknown d with _ | t
  · rw [hfu] at h
    injection h with h
    subst h
    refine ⟨?_, ?_, ?_, ?_, ?_, ?_, ?_, ?_, ?_, ?_⟩ <;>
      (intro hn; simp [slotVal, hn])
  · rw [hfu] at h
    simp at h

/-- C5 witness: the theorem applied to the dictionary
`{"alphanumeric": "C"}`, which deserializes to the record whose only
non-default field is `alphanumeric = "C"`; the absent keys (here type,
latitude and autonomous are spot-checked) stay at the defaults. -/
theorem object_from_dict_partial_update_witness :
    ({ alphanumeric := "C" } : Object).type = "" ∧
    ({ alphanumeric := "C" } : Object).latitude = 0 ∧
    ({ alphanumeric := "C" } : Object).autonomous = false := by
  have h := object_from_dict_partial_update
    { alphanumeric := some (some "C") } { alphanumeric := "C" } rfl
  exact ⟨h.1 rfl, h.2.1 rfl, h.2.2.2.2.2.2.2.2.2 rfl⟩

/-- `badTok` cannot distinguish a `None`-valued entry from an absent one. -/
theorem badTok_normalizeEntry (tokens : List String)
    (e : Option (Option String)) :
    badTok tokens (normalizeEntry e) = badTok tokens e := by
  rcases e with _ | ⟨_ | v⟩ <;> rfl

/-- `slotVal` cannot distinguish a `None`-valued entry from an absent one. -/
theorem slotVal_normalizeEntry {α : Type} (dflt : α) (e : Option (Option α)) :
    slotVal dflt (normalizeEntry e) = slotVal dflt e := by
  rcases e with _ | ⟨_ | v⟩ <;> rfl

/-- C9: the result of `ObjectSerializer.from_dict` depends only on the
entries whose key names an `Object` field and whose value is not `None`:
dropping the `id`/`user` keys and collapsing `None`-valued entries to absent
ones leaves the result unchanged (in particular a `None`-valued field is left
at its default rather than raising an error). -/
theorem object_from_dict_observes_only_known_entries (d : ObjectDict) :
    ObjectSerializer.from_dict d = ObjectSerializer.from_dict d.normalize := by
  rw [objectFromDict_eq, objectFromDict_eq]
  simp only [ObjectDict.normalize, firstUnknown, badTok_normalizeEntry,
    slotVal_normalizeEntry]

/-- Python float modulo by 360 always lands in `[0, 360)` (in the exact real
model): it is `360` times the fractional part of `a / 360`. -/
theorem pymod_mem (a : ℝ) : 0 ≤ pymod a 360 ∧ pymod a 360 < 360 := by
  have h : pymod a 360 = 360 * Int.fract (a / 360) := by
    unfold pymod Int.fract
    field_simp
  rw [h]
  constructor
  · exact mul_nonneg (by norm_num) (Int.fract_nonneg _)
  · calc 360 * Int.fract (a / 360) < 360 * 1 :=
        mul_lt_mul_of_pos_left (Int.fract_lt_one _) (by norm_num)
    _ = 360 := by norm_num

/-- `atan2 0 1 = 0`: the argument of the complex number `1`. -/
theorem atan2_zero_one : atan2 0 1 = 0 := by
  unfold atan2
  have h : (⟨1, 0⟩ : ℂ) = 1 := by
    apply Complex.ext <;> simp
  rw [h, Complex.arg_one]

/-- The identity quaternion has yaw 0: the quaternion matrix is well
conditioned (`nq = 1`), `M00 = 1`, `M10 = 0`, `sy = 1 > eps`, and
`atan2(0, 1) = 0`. -/
theorem yawFromQuaternion_identity : yawFromQuaternion 0 0 0 1 = 0 := by
  have h00 : quatM00 0 0 0 1 = 1 := by
    unfold quatM00 tfEPS
    norm_num
  have h10 : quatM10 0 0 0 1 = 0 := by
    unfold quatM10 tfEPS
    norm_num
  unfold yawFromQuaternion
  rw [h00, h10]
  show (if Real.sqrt ((1:ℝ) * 1 + 0 * 0) > tfEPS then atan2 0 1 else 0) = 0
  rw [show (1:ℝ) * 1 + 0 * 0 = 1 by ring, Real.sqrt_one]
  rw [if_pos (show (1:ℝ) > tfEPS by unfold tfEPS; norm_num)]
  exact atan2_zero_one

/-- C4: the heading produced by `TelemetrySerializer.from_msg` is
`(450 - yawDegrees) mod 360` where `yawDegrees` is the yaw extracted from the
orientation quaternion converted to degrees; it always lies in `[0, 360)`,
and on the identity quaternion it equals 90 degrees. -/
theorem telemetry_heading_spec (navsat_msg : NavSatFix)
    (altitude_msg : Altitude) (pose_msg : PoseStamped) :
    ((TelemetrySerializer.from_msg navsat_msg altitude_msg pose_msg).uas_heading
        = pymod (450 - rad2deg (yawFromQuaternion pose_msg.pose.orientation.x
            pose_msg.pose.orientation.y pose_msg.pose.orientation.z
            pose_msg.pose.orientation.w)) 360 ∧
      0 ≤ (TelemetrySerializer.from_msg navsat_msg altitude_msg
            pose_msg).uas_heading ∧
      (TelemetrySerializer.from_msg navsat_msg altitude_msg
            pose_msg).uas_heading < 360) ∧
    (TelemetrySerializer.from_msg navsat_msg altitude_msg
        { pose := { orientation := { x := 0, y := 0, z := 0, w := 1 } } }).uas_heading
      = 90 := by
  refine ⟨⟨rfl, (pymod_mem _).1, (pymod_mem _).2⟩, ?_⟩
  show pymod (450 - rad2deg (yawFromQuaternion 0 0 0 1)) 360 = 90
  rw [yawFromQuaternion_identity]
  rw [show rad2deg 0 = 0 from by unfold rad2deg; ring]
  show (450:ℝ) - 0 - 360 * ⌊((450:ℝ) - 0) / 360⌋ = 90
  rw [show ((450:ℝ) - 0) / 360 = 5 / 4 by norm_num]
  rw [show ⌊(5 / 4 : ℝ)⌋ = 1 from by rw [Int.floor_eq_iff] <;> norm_num]
  norm_num

/-- C8: the image path is lossless: when the external PNG codec satisfies the
losslessness the source comments on (`dec (enc r) = some r`), any successful
first decode of a byte stream, re-encoded through `from_msg` and decoded
again, yields exactly the image of the first decode, pixel for pixel. -/
theorem image_roundtrip {R B : Type} (dec : B → Option R) (enc : R → B)
    (hloss : ∀ r, dec (enc r) = some r) (raw : B) (m : RosImage R)
    (hdec : ObjectImageSerializer.from_raw dec enc raw false = some (.inl m)) :
    ∃ png, ObjectImageSerializer.from_msg dec enc (.inl m) = some png ∧
      ObjectImageSerializer.from_raw dec enc png false = some (.inl m) := by
  refine ⟨enc (imgmsg_to_cv2 m), rfl, ?_⟩
  simp [ObjectImageSerializer.from_raw, ObjectImageSerializer.fromRawCore,
    imgmsg_to_cv2, cv2_to_imgmsg, hloss]

/-- C8 witness: the theorem applied to a concrete trivial lossless codec
(`R = B = Nat`, identity encoding) and the byte value 7, whose first decode
is the image wrapping 7. -/
theorem image_roundtrip_witness :
    ∃ png, ObjectImageSerializer.from_msg (fun b : Nat => some b) (fun r => r)
        (.inl ⟨7⟩) = some png ∧
      ObjectImageSerializer.from_raw (fun b : Nat => some b) (fun r => r) png
        false = some (.inl ⟨7⟩) :=
  image_roundtrip (fun b : Nat => some b) (fun r => r) (fun _ => rfl) 7 ⟨7⟩ rfl
